import Mathlib

/-!
Verification of the `sysx` cleaning subsystem against its design spec.

The embedding covers:
* `get_dir_size` (src/sysx/utils/helpers.py): recursive directory size with
  per-entry failure tolerance;
* `format_bytes` (src/sysx/utils/formatters.py): human-readable byte counts;
* `scan_cleanable_items`, the executor actions and `perform_cleaning`
  (src/sysx/modules/cleaner.py).

The host filesystem is modelled abstractly: a host maps a directory path to
the listing of entries beneath it (`none` meaning the path does not exist or
is not a directory), and maps a command name to whether a which-style lookup
finds it.  A file's size probe is an `Option Nat`: `none` models a probe that
raises (permission denied, vanished file, broken symlink) and contributes 0.
-/

namespace Sysx

mutual

/-- A directory tree entry: a regular file with a name and a size probe, or a
subdirectory with a name and its own listing.  Mutual with `FSDir`, the
listing of a directory. -/
inductive FSEntry : Type where
  | file (name : String) (size : Option Nat) : FSEntry
  | dir (name : String) (children : FSDir) : FSEntry

/-- A directory listing, i.e. a finite sequence of entries. -/
inductive FSDir : Type where
  | nil : FSDir
  | cons (e : FSEntry) (rest : FSDir) : FSDir

end

/-- A host state: `fs p` is the listing under directory path `p` (`none` when
`p` does not exist or is not a directory), `home` is the expanded `~`, and
`tools c` says whether `which c` succeeds (`command_exists` in helpers.py). -/
structure Host : Type where
  fs : String → Option FSDir
  home : String
  tools : String → Bool

/-- `dir_exists` from helpers.py: `os.path.isdir`. -/
def dir_exists (h : Host) (p : String) : Bool :=
  (h.fs p).isSome

/-- `command_exists` from helpers.py: a which-style PATH lookup. -/
def command_exists (h : Host) (c : String) : Bool :=
  h.tools c

mutual

/-- Size contributed by one walked entry in `get_dir_size`: a file adds its
probed size, with a failing probe swallowed as 0 (`except OSError: continue`);
a subdirectory is recursed into. -/
def entrySize : FSEntry → Nat
  | .file _ sz => sz.getD 0
  | .dir _ cs => entriesSize cs
/-- Accumulated size of a directory listing, as `os.walk` visits it. -/
def entriesSize : FSDir → Nat
  | .nil => 0
  | .cons e rest => entrySize e + entriesSize rest

end

/-- `get_dir_size` from helpers.py: walk the tree under `dirpath` summing
regular-file sizes; a nonexistent or non-directory path yields an empty walk
and hence 0. -/
def get_dir_size (h : Host) (p : String) : Nat :=
  match h.fs p with
  | some cs => entriesSize cs
  | none => 0

mutual

/-- The reachable regular files of one entry, as (name, size-probe) pairs.
This is the specification-side enumeration used to state what
`get_dir_size` computes. -/
def entryFiles : FSEntry → List (String × Option Nat)
  | .file n sz => [(n, sz)]
  | .dir _ cs => entriesFiles cs
/-- The reachable regular files of a listing. -/
def entriesFiles : FSDir → List (String × Option Nat)
  | .nil => []
  | .cons e rest => entryFiles e ++ entriesFiles rest

end

/-- Sum of the size probes of a file list, failed probes counting 0. -/
def probesSum (l : List (String × Option Nat)) : Nat :=
  (l.map (fun f => f.2.getD 0)).sum

/-- Python's `str.endswith` on a single suffix, over the character list. -/
def pyEndsWith (s t : String) : Bool :=
  decide (t.data.length ≤ s.data.length) &&
    s.data.drop (s.data.length - t.data.length) == t.data

/-- Python's default `str.strip` whitespace set (ASCII part). -/
def pyIsSpace (c : Char) : Bool :=
  c == ' ' || c == '\t' || c == '\n' || c == '\r' || c == Char.ofNat 11 || c == Char.ofNat 12

/-- Python's `str.strip()`: drop leading and trailing whitespace. -/
def pyStrip (s : String) : String :=
  ⟨((s.data.dropWhile pyIsSpace).reverse.dropWhile pyIsSpace).reverse⟩

/-- Lowercase one character, ASCII range (what `str.lower` does on the
inputs this program reads). -/
def pyLowerChar (c : Char) : Char :=
  if 'A' ≤ c && c ≤ 'Z' then Char.ofNat (c.toNat + 32) else c

/-- Python's `str.lower()` on ASCII text. -/
def pyLower (s : String) : String :=
  ⟨s.data.map pyLowerChar⟩

/-- The rotated-log name test from cleaner.py line 75:
`file.endswith(('.gz', '.1', '.2', '.old'))`. -/
def isOldLogName (s : String) : Bool :=
  pyEndsWith s ".gz" || pyEndsWith s ".1" || pyEndsWith s ".2" || pyEndsWith s ".old"

mutual

/-- Old-log bytes contributed by one walked entry in the cleaner's
`/var/log` walk: only files whose name matches `isOldLogName` count, a
failing size probe is swallowed as 0. -/
def entryOld : FSEntry → Nat
  | .file n sz => if isOldLogName n then sz.getD 0 else 0
  | .dir _ cs => entriesOld cs
/-- Old-log bytes of a whole listing. -/
def entriesOld : FSDir → Nat
  | .nil => 0
  | .cons e rest => entryOld e + entriesOld rest

end

/-- The `old_logs` accumulator of `scan_cleanable_items` (cleaner.py lines
70-82): 0 when `/var/log` is absent, else the matching-file sum of its walk. -/
def old_logs_size (h : Host) : Nat :=
  match h.fs "/var/log" with
  | some cs => entriesOld cs
  | none => 0

/-- The category keys of the cleanable-items dictionary. -/
inductive Category : Type where
  | apt_cache | dnf_cache | yum_cache | user_cache | thumbnail_cache
  | tmp | var_tmp | system_logs | journal_logs | old_logs
  deriving DecidableEq, Repr

/-- A snapshot: the cleanable dictionary in insertion order. -/
abbrev Snapshot := List (Category × Nat)

def aptCachePath : String := "/var/cache/apt/archives"
def dnfCachePath : String := "/var/cache/dnf"
def yumCachePath : String := "/var/cache/yum"
def varLogPath : String := "/var/log"
def journalPath : String := "/var/log/journal"

/-- `os.path.join(home, ".cache")`. -/
def userCachePath (h : Host) : String := h.home ++ "/.cache"

/-- `os.path.join(home, ".cache", "thumbnails")`. -/
def thumbCachePath (h : Host) : String := h.home ++ "/.cache/thumbnails"

/-- `scan_cleanable_items` from cleaner.py: probe each fixed location and
record its size under its category key, in source order.  DNF and YUM share
an if/elif; `old_logs` is unconditionally inserted last. -/
def scan_cleanable_items (h : Host) : Snapshot :=
  (if dir_exists h aptCachePath then [(Category.apt_cache, get_dir_size h aptCachePath)] else [])
  ++ (if dir_exists h dnfCachePath then [(Category.dnf_cache, get_dir_size h dnfCachePath)]
      else if dir_exists h yumCachePath then [(Category.yum_cache, get_dir_size h yumCachePath)]
      else [])
  ++ (if dir_exists h (userCachePath h) then [(Category.user_cache, get_dir_size h (userCachePath h))] else [])
  ++ (if dir_exists h (thumbCachePath h) then [(Category.thumbnail_cache, get_dir_size h (thumbCachePath h))] else [])
  ++ (if dir_exists h "/tmp" then [(Category.tmp, get_dir_size h "/tmp")] else [])
  ++ (if dir_exists h "/var/tmp" then [(Category.var_tmp, get_dir_size h "/var/tmp")] else [])
  ++ (if dir_exists h varLogPath then [(Category.system_logs, get_dir_size h varLogPath)] else [])
  ++ (if dir_exists h journalPath then [(Category.journal_logs, get_dir_size h journalPath)] else [])
  ++ [(Category.old_logs, old_logs_size h)]

/-- Key membership in a snapshot (`'k' in cleanable`). -/
def hasCat (s : Snapshot) (c : Category) : Bool :=
  s.any (fun p => p.1 == c)

/-- Value lookup in a snapshot (`cleanable['k']`). -/
def lookupCat (s : Snapshot) (c : Category) : Option Nat :=
  (s.find? (fun p => p.1 == c)).map (fun p => p.2)

/-- `sum(cleanable.values())`. -/
def snapshotTotal (s : Snapshot) : Nat :=
  (s.map (fun p => p.2)).sum

/-- The destructive shell commands the executor actions can run.  They are
kept structured so that "zero side effects" is the empty command list. -/
inductive Cmd : Type where
  | aptClean | aptAutoclean | dnfCleanAll | yumCleanAll
  | rmrfContents (path : String)
  | journalVacuum3d
  | findDelete (suffix : String)
  deriving DecidableEq, Repr

/-- `clean_apt_cache`: `apt-get clean` then `apt-get autoclean`, only if the
`apt-get` tool exists. -/
def clean_apt_cache (h : Host) : List Cmd :=
  if command_exists h "apt-get" then [Cmd.aptClean, Cmd.aptAutoclean] else []

/-- `clean_dnf_cache`: `dnf clean all`, only if `dnf` exists. -/
def clean_dnf_cache (h : Host) : List Cmd :=
  if command_exists h "dnf" then [Cmd.dnfCleanAll] else []

/-- `clean_yum_cache`: `yum clean all`, only if `yum` exists. -/
def clean_yum_cache (h : Host) : List Cmd :=
  if command_exists h "yum" then [Cmd.yumCleanAll] else []

/-- The allow-list of `clean_user_cache`. -/
def safeDirs : List String := ["thumbnails", "mozilla", "chromium", "google-chrome"]

/-- `clean_user_cache`: if `$HOME/.cache` exists, `rm -rf` the contents of
each allow-listed subdirectory that exists. -/
def clean_user_cache (h : Host) : List Cmd :=
  if dir_exists h (userCachePath h) then
    safeDirs.filterMap (fun sub =>
      let p := userCachePath h ++ "/" ++ sub
      if dir_exists h p then some (Cmd.rmrfContents p) else none)
  else []

/-- `clean_journal_logs`: `journalctl --vacuum-time=3d`, only if `journalctl`
exists. -/
def clean_journal_logs (h : Host) : List Cmd :=
  if command_exists h "journalctl" then [Cmd.journalVacuum3d] else []

/-- `clean_old_logs`: four find-and-delete passes under `/var/log`, only if
`/var/log` exists. -/
def clean_old_logs (h : Host) : List Cmd :=
  if dir_exists h varLogPath then
    [Cmd.findDelete ".gz", Cmd.findDelete ".old", Cmd.findDelete ".1", Cmd.findDelete ".2"]
  else []

/-- The six executor actions `perform_cleaning` can invoke, in the source's
naming. -/
inductive Action : Type where
  | apt | dnf | yum | user | journal | old
  deriving DecidableEq, Repr

/-- The snapshot key guarding each executor action in `perform_cleaning`. -/
def actionCat : Action → Category
  | .apt => Category.apt_cache
  | .dnf => Category.dnf_cache
  | .yum => Category.yum_cache
  | .user => Category.user_cache
  | .journal => Category.journal_logs
  | .old => Category.old_logs

/-- The guarded-invocation order of `perform_cleaning` lines 224-240. -/
def actionOrder : List Action :=
  [Action.apt, Action.dnf, Action.yum, Action.user, Action.journal, Action.old]

/-- Observable outcome of one `perform_cleaning` run: whether the
confirmation prompt was issued, whether the session ended cancelled, which
executor actions were invoked (in order), which destructive commands were run
(in order), and the reported freed-space value (`none` when the run ended
before the rescan). -/
structure CleanResult : Type where
  prompted : Bool
  cancelled : Bool
  actions : List Action
  commands : List Cmd
  freed : Option Int
  deriving DecidableEq, Repr

/-- `perform_cleaning` from cleaner.py.  `h` is the host at scan time,
`response` the confirmation line read from stdin, and `post` the host at
rescan time (the filesystem after the executor actions and any concurrent
activity). -/
def perform_cleaning (h : Host) (dry_run : Bool) (response : String) (post : Host) : CleanResult :=
  let cleanable := scan_cleanable_items h
  let total := snapshotTotal cleanable
  if dry_run then
    { prompted := false, cancelled := false, actions := [], commands := [], freed := none }
  else if pyLower (pyStrip response) ≠ "y" then
    { prompted := true, cancelled := true, actions := [], commands := [], freed := none }
  else
    let acts :=
      (if hasCat cleanable Category.apt_cache then [Action.apt] else [])
      ++ (if hasCat cleanable Category.dnf_cache then [Action.dnf] else [])
      ++ (if hasCat cleanable Category.yum_cache then [Action.yum] else [])
      ++ (if hasCat cleanable Category.user_cache then [Action.user] else [])
      ++ (if hasCat cleanable Category.journal_logs then [Action.journal] else [])
      ++ (if hasCat cleanable Category.old_logs then [Action.old] else [])
    let cmds :=
      (if hasCat cleanable Category.apt_cache then clean_apt_cache h else [])
      ++ (if hasCat cleanable Category.dnf_cache then clean_dnf_cache h else [])
      ++ (if hasCat cleanable Category.yum_cache then clean_yum_cache h else [])
      ++ (if hasCat cleanable Category.user_cache then clean_user_cache h else [])
      ++ (if hasCat cleanable Category.journal_logs then clean_journal_logs h else [])
      ++ (if hasCat cleanable Category.old_logs then clean_old_logs h else [])
    let newTotal := snapshotTotal (scan_cleanable_items post)
    { prompted := true, cancelled := false, actions := acts, commands := cmds,
      freed := some ((total : Int) - (newTotal : Int)) }

/-- Round the rational `p / q` (with `q > 0`) to the nearest integer, ties to
even — the rounding CPython's fixed-point float formatting applies to an
exactly-representable value. -/
def roundHalfEven (p q : Int) : Int :=
  let d := p / q
  let r := p % q
  if 2 * r < q then d
  else if q < 2 * r then d + 1
  else if d % 2 = 0 then d else d + 1

/-- Render the integer `n` as the decimal `n / 10` with exactly one digit
after the point, as `"{:.1f}"` does. -/
def fmtOneDec (n : Int) : String :=
  if n < 0 then
    "-" ++ toString ((-n).toNat / 10) ++ "." ++ toString ((-n).toNat % 10)
  else
    toString (n.toNat / 10) ++ "." ++ toString (n.toNat % 10)

/-- Render `x / 1024 ^ k` with one decimal place.  All divisions by 1024 are
exact in binary floating point, so the rational value is the float's value and
`"{:.1f}"` rounds it half-to-even. -/
def fmtScaled (x : Int) (k : Nat) : String :=
  fmtOneDec (roundHalfEven (10 * x) ((1024 : Int) ^ k))

/-- The unit ladder of `format_bytes`'s loop (the post-loop fallback is EB). -/
def unitLadder : List String := ["B", "KB", "MB", "GB", "TB", "PB"]

/-- The loop of `format_bytes`: at step `k` the running value is
`x / 1024 ^ k`; it is emitted with the current unit once below 1024, else
divided by 1024 again; after the last unit the value is emitted as EB. -/
def format_bytes_go : List String → Int → Nat → String
  | [], x, k => fmtScaled x k ++ " EB"
  | u :: us, x, k =>
    if x < (1024 : Int) ^ (k + 1) then fmtScaled x k ++ " " ++ u
    else format_bytes_go us x (k + 1)

/-- `format_bytes` from formatters.py.  `none` models an argument
`float()` rejects (the `except` branch returning `"0 B"`); `some x` a byte
count that converts exactly. -/
def format_bytes : Option Int → String
  | none => "0 B"
  | some x => format_bytes_go unitLadder x 0

/-- The existence condition of a category's defining path, read off the
guards of `scan_cleanable_items` (`old_logs` has no guard). -/
def definingDirExists (h : Host) : Category → Bool
  | .apt_cache => dir_exists h aptCachePath
  | .dnf_cache => dir_exists h dnfCachePath
  | .yum_cache => dir_exists h yumCachePath
  | .user_cache => dir_exists h (userCachePath h)
  | .thumbnail_cache => dir_exists h (thumbCachePath h)
  | .tmp => dir_exists h "/tmp"
  | .var_tmp => dir_exists h "/var/tmp"
  | .system_logs => dir_exists h varLogPath
  | .journal_logs => dir_exists h journalPath
  | .old_logs => true

/-! ### Concrete hosts used to instantiate the theorems -/

/-- A host with no directories and no tools. -/
def emptyHost : Host :=
  { fs := fun _ => none, home := "/root", tools := fun _ => false }

/-- A host whose only directory is `/tmp`, holding one file of `n` bytes. -/
def tmpHost (n : Nat) : Host :=
  { fs := fun p =>
      if p = "/tmp" then some (FSDir.cons (FSEntry.file "a" (some n)) FSDir.nil) else none
    home := "/root", tools := fun _ => false }

/-- A host with an APT archive cache and the `apt-get` tool. -/
def aptHost : Host :=
  { fs := fun p =>
      if p = "/var/cache/apt/archives" then
        some (FSDir.cons (FSEntry.file "x.deb" (some 10)) FSDir.nil)
      else none
    home := "/root", tools := fun c => c == "apt-get" }

/-- A host where both the DNF and the YUM cache directories exist. -/
def dnfYumHost : Host :=
  { fs := fun p =>
      if p = "/var/cache/dnf" then some FSDir.nil
      else if p = "/var/cache/yum" then some FSDir.nil
      else none
    home := "/root", tools := fun _ => false }

/-- A host whose `/var/log` holds a single live (non-rotated) log file. -/
def varLogHost : Host :=
  { fs := fun p =>
      if p = "/var/log" then some (FSDir.cons (FSEntry.file "syslog" (some 7)) FSDir.nil)
      else none
    home := "/root", tools := fun _ => false }

/-- A host with a DNF cache directory but no tools at all on PATH. -/
def dnfNoToolHost : Host :=
  { fs := fun p => if p = "/var/cache/dnf" then some FSDir.nil else none
    home := "/root", tools := fun _ => false }

/-! ### Helper lemmas -/

mutual

/-- The walk's running sum over one entry is the probe sum of its reachable
files. -/
theorem entrySize_spec (e : FSEntry) : entrySize e = probesSum (entryFiles e) :=
  match e with
  | .file n sz => by simp [entrySize, entryFiles, probesSum]
  | .dir n cs => by simpa [entrySize, entryFiles] using entriesSize_spec cs

/-- The walk's running sum over a listing is the probe sum of its reachable
files. -/
theorem entriesSize_spec (d : FSDir) : entriesSize d = probesSum (entriesFiles d) :=
  match d with
  | .nil => by simp [entriesSize, entriesFiles, probesSum]
  | .cons e rest => by
    simp [entriesSize, entriesFiles, probesSum, entrySize_spec e, entriesSize_spec rest]

end

mutual

/-- If no reachable file of an entry has a rotated-log name, the old-log walk
contributes nothing for it. -/
theorem entryOld_zero (e : FSEntry)
    (hn : ∀ x ∈ entryFiles e, isOldLogName x.1 = false) : entryOld e = 0 :=
  match e with
  | .file n sz => by
    have := hn (n, sz) (by simp [entryFiles])
    simp [entryOld, this]
  | .dir n cs => by
    simpa [entryOld] using entriesOld_zero cs (by simpa [entryFiles] using hn)

/-- If no reachable file of a listing has a rotated-log name, the old-log walk
sums to 0. -/
theorem entriesOld_zero (d : FSDir)
    (hn : ∀ x ∈ entriesFiles d, isOldLogName x.1 = false) : entriesOld d = 0 :=
  match d with
  | .nil => by simp [entriesOld]
  | .cons e rest => by
    have h1 := entryOld_zero e (fun x hx => hn x (by simp [entriesFiles, hx]))
    have h2 := entriesOld_zero rest (fun x hx => hn x (by simp [entriesFiles, hx]))
    simp [entriesOld, h1, h2]

end

/-- The derived `==` on categories is propositional-equality decision. -/
theorem cat_beq_def (a b : Category) : (a == b) = decide (a = b) := rfl

theorem any_if_single {α : Type} (c : Bool) (x : α) (f : α → Bool) :
    (if c then [x] else []).any f = (c && f x) := by
  cases c <;> simp

theorem find?_if_single {α : Type} (c : Bool) (x : α) (f : α → Bool) (hf : f x = false) :
    (if c then [x] else []).find? f = none := by
  cases c <;> simp [List.find?, hf]

theorem hasCat_append (a b : Snapshot) (c : Category) :
    hasCat (a ++ b) c = (hasCat a c || hasCat b c) := by
  simp [hasCat]

theorem hasCat_apt (h : Host) :
    hasCat (scan_cleanable_items h) Category.apt_cache = dir_exists h aptCachePath := by
  simp only [scan_cleanable_items, hasCat_append, hasCat, any_if_single]
  cases dir_exists h dnfCachePath <;> cases dir_exists h yumCachePath <;>
    simp [any_if_single, List.any_cons, cat_beq_def]

theorem hasCat_dnf (h : Host) :
    hasCat (scan_cleanable_items h) Category.dnf_cache = dir_exists h dnfCachePath := by
  simp only [scan_cleanable_items, hasCat_append, hasCat, any_if_single]
  cases dir_exists h dnfCachePath <;> cases dir_exists h yumCachePath <;>
    simp [any_if_single, List.any_cons, cat_beq_def]

theorem hasCat_yum (h : Host) :
    hasCat (scan_cleanable_items h) Category.yum_cache
      = (!dir_exists h dnfCachePath && dir_exists h yumCachePath) := by
  simp only [scan_cleanable_items, hasCat_append, hasCat, any_if_single]
  cases dir_exists h dnfCachePath <;> cases dir_exists h yumCachePath <;>
    simp [any_if_single, List.any_cons, cat_beq_def]

theorem hasCat_user (h : Host) :
    hasCat (scan_cleanable_items h) Category.user_cache = dir_exists h (userCachePath h) := by
  simp only [scan_cleanable_items, hasCat_append, hasCat, any_if_single]
  cases dir_exists h dnfCachePath <;> cases dir_exists h yumCachePath <;>
    simp [any_if_single, List.any_cons, cat_beq_def]

theorem hasCat_thumb (h : Host) :
    hasCat (scan_cleanable_items h) Category.thumbnail_cache = dir_exists h (thumbCachePath h) := by
  simp only [scan_cleanable_items, hasCat_append, hasCat, any_if_single]
  cases dir_exists h dnfCachePath <;> cases dir_exists h yumCachePath <;>
    simp [any_if_single, List.any_cons, cat_beq_def]

theorem hasCat_tmp (h : Host) :
    hasCat (scan_cleanable_items h) Category.tmp = dir_exists h "/tmp" := by
  simp only [scan_cleanable_items, hasCat_append, hasCat, any_if_single]
  cases dir_exists h dnfCachePath <;> cases dir_exists h yumCachePath <;>
    simp [any_if_single, List.any_cons, cat_beq_def]

theorem hasCat_var_tmp (h : Host) :
    hasCat (scan_cleanable_items h) Category.var_tmp = dir_exists h "/var/tmp" := by
  simp only [scan_cleanable_items, hasCat_append, hasCat, any_if_single]
  cases dir_exists h dnfCachePath <;> cases dir_exists h yumCachePath <;>
    simp [any_if_single, List.any_cons, cat_beq_def]

theorem hasCat_system_logs (h : Host) :
    hasCat (scan_cleanable_items h) Category.system_logs = dir_exists h varLogPath := by
  simp only [scan_cleanable_items, hasCat_append, hasCat, any_if_single]
  cases dir_exists h dnfCachePath <;> cases dir_exists h yumCachePath <;>
    simp [any_if_single, List.any_cons, cat_beq_def]

theorem hasCat_journal (h : Host) :
    hasCat (scan_cleanable_items h) Category.journal_logs = dir_exists h journalPath := by
  simp only [scan_cleanable_items, hasCat_append, hasCat, any_if_single]
  cases dir_exists h dnfCachePath <;> cases dir_exists h yumCachePath <;>
    simp [any_if_single, List.any_cons, cat_beq_def]

theorem hasCat_old (h : Host) :
    hasCat (scan_cleanable_items h) Category.old_logs = true := by
  simp only [scan_cleanable_items, hasCat_append, hasCat, any_if_single]
  cases dir_exists h dnfCachePath <;> cases dir_exists h yumCachePath <;>
    simp [any_if_single, List.any_cons, cat_beq_def]

theorem lookupCat_old (h : Host) :
    lookupCat (scan_cleanable_items h) Category.old_logs = some (old_logs_size h) := by
  have hf : ∀ (c : Bool) (cat : Category) (v : Nat), cat ≠ Category.old_logs →
      (if c then [(cat, v)] else []).find? (fun p => p.1 == Category.old_logs) = none := by
    intro c cat v hne
    cases c <;> simp [List.find?, cat_beq_def, hne]
  have hdy : (if dir_exists h dnfCachePath then [(Category.dnf_cache, get_dir_size h dnfCachePath)]
      else if dir_exists h yumCachePath then [(Category.yum_cache, get_dir_size h yumCachePath)]
      else []).find? (fun p => p.1 == Category.old_logs) = none := by
    cases dir_exists h dnfCachePath <;> cases dir_exists h yumCachePath <;>
      simp [List.find?, cat_beq_def]
  simp only [lookupCat, scan_cleanable_items, List.find?_append]
  rw [hf _ Category.apt_cache _ (by decide), hdy,
    hf _ Category.user_cache _ (by decide), hf _ Category.thumbnail_cache _ (by decide),
    hf _ Category.tmp _ (by decide), hf _ Category.var_tmp _ (by decide),
    hf _ Category.system_logs _ (by decide), hf _ Category.journal_logs _ (by decide)]
  simp [List.find?, cat_beq_def]

/-! ### Claim theorems -/

/-- Claim C3: with `dry_run = true`, `perform_cleaning` issues no confirmation
prompt, invokes no executor action, runs no destructive command, and
terminates right after the scan and summary (no freed-space report), for every
host state, response and post state. -/
theorem dry_run_invariant (h : Host) (resp : String) (post : Host) :
    perform_cleaning h true resp post =
      { prompted := false, cancelled := false, actions := [], commands := [], freed := none } :=
  rfl

/-- Claim C2 (amended): any response whose whitespace-stripped, lowercased
form is not `"y"` leaves `perform_cleaning` cancelled at the prompt: zero
executor invocations, zero destructive commands, no freed-space report. -/
theorem cancellation_requires_y (h : Host) (resp : String) (post : Host)
    (hr : pyLower (pyStrip resp) ≠ "y") :
    perform_cleaning h false resp post =
      { prompted := true, cancelled := true, actions := [], commands := [], freed := none } := by
  simp only [perform_cleaning, Bool.false_eq_true, if_false]
  rw [if_pos hr]

/-- Witness for C2: the response `"n"` cancels the session on a concrete
host. -/
theorem cancellation_requires_y_witness :
    pyLower (pyStrip "n") ≠ "y" ∧
    perform_cleaning emptyHost false "n" emptyHost =
      { prompted := true, cancelled := true, actions := [], commands := [], freed := none } :=
  ⟨by decide, cancellation_requires_y emptyHost "n" emptyHost (by decide)⟩

/-- Counterexample for C2 as stated: the response `" y"` (leading space) is
neither the exact string `"y"` nor `"Y"`, yet the session is not cancelled:
the APT executor action is invoked and destructive commands run, because the
code strips whitespace before the comparison. -/
theorem cancellation_cex :
    (" y" ≠ "y" ∧ " y" ≠ "Y") ∧
    (perform_cleaning aptHost false " y" aptHost).cancelled = false ∧
    (perform_cleaning aptHost false " y" aptHost).actions = [Action.apt, Action.old] ∧
    (perform_cleaning aptHost false " y" aptHost).commands = [Cmd.aptClean, Cmd.aptAutoclean] := by
  decide

/-- Claim C4: when both `/var/cache/dnf` and `/var/cache/yum` exist the
snapshot has `dnf_cache` and not `yum_cache`, and on no host are both keys
present. -/
theorem dnf_yum_exclusion (h : Host)
    (hd : dir_exists h dnfCachePath = true) (_hy : dir_exists h yumCachePath = true) :
    hasCat (scan_cleanable_items h) Category.dnf_cache = true ∧
    hasCat (scan_cleanable_items h) Category.yum_cache = false ∧
    ∀ h2 : Host, ¬(hasCat (scan_cleanable_items h2) Category.dnf_cache = true ∧
      hasCat (scan_cleanable_items h2) Category.yum_cache = true) := by
  refine ⟨by rw [hasCat_dnf, hd], by rw [hasCat_yum, hd]; rfl, ?_⟩
  rintro h2 ⟨h2d, h2y⟩
  rw [hasCat_dnf] at h2d
  rw [hasCat_yum, h2d] at h2y
  simp at h2y

/-- Witness for C4 on a host carrying both cache directories. -/
theorem dnf_yum_exclusion_witness :
    hasCat (scan_cleanable_items dnfYumHost) Category.dnf_cache = true ∧
    hasCat (scan_cleanable_items dnfYumHost) Category.yum_cache = false :=
  ⟨(dnf_yum_exclusion dnfYumHost (by decide) (by decide)).1,
   (dnf_yum_exclusion dnfYumHost (by decide) (by decide)).2.1⟩

/-- Claim C5: `get_dir_size` returns exactly the sum of the size probes of
every regular file reachable under the directory (a failed probe contributing
0 while the walk continues), and returns 0 when the path does not exist or is
not a directory. -/
theorem get_dir_size_spec (h : Host) (p : String) :
    (∀ d, h.fs p = some d → get_dir_size h p = probesSum (entriesFiles d)) ∧
    (h.fs p = none → get_dir_size h p = 0) := by
  constructor
  · intro d hd
    simp [get_dir_size, hd, entriesSize_spec]
  · intro hn
    simp [get_dir_size, hn]

/-- Witness for C5: a one-file `/tmp` and a nonexistent path. -/
theorem get_dir_size_spec_witness :
    get_dir_size (tmpHost 5) "/tmp"
      = probesSum (entriesFiles (FSDir.cons (FSEntry.file "a" (some 5)) FSDir.nil)) ∧
    get_dir_size (tmpHost 5) "/nonexistent" = 0 :=
  ⟨(get_dir_size_spec (tmpHost 5) "/tmp").1 _ rfl,
   (get_dir_size_spec (tmpHost 5) "/nonexistent").2 rfl⟩

/-- Claim C6: every snapshot key other than `old_logs` implies its defining
path existed at scan time; `old_logs` is present in every snapshot, with value
0 when `/var/log` is absent or when no file name under `/var/log` carries one
of the four rotated-log suffixes. -/
theorem snapshot_presence (h : Host) :
    hasCat (scan_cleanable_items h) Category.old_logs = true ∧
    (∀ c : Category, hasCat (scan_cleanable_items h) c = true →
      c ≠ Category.old_logs → definingDirExists h c = true) ∧
    (h.fs varLogPath = none →
      lookupCat (scan_cleanable_items h) Category.old_logs = some 0) ∧
    (∀ d, h.fs varLogPath = some d →
      (∀ x ∈ entriesFiles d, isOldLogName x.1 = false) →
      lookupCat (scan_cleanable_items h) Category.old_logs = some 0) := by
  refine ⟨hasCat_old h, ?_, ?_, ?_⟩
  · intro c hc hne
    cases c with
    | apt_cache => rw [hasCat_apt] at hc; exact hc
    | dnf_cache => rw [hasCat_dnf] at hc; exact hc
    | yum_cache =>
      rw [hasCat_yum] at hc
      exact (Bool.and_eq_true_iff.mp hc).2
    | user_cache => rw [hasCat_user] at hc; exact hc
    | thumbnail_cache => rw [hasCat_thumb] at hc; exact hc
    | tmp => rw [hasCat_tmp] at hc; exact hc
    | var_tmp => rw [hasCat_var_tmp] at hc; exact hc
    | system_logs => rw [hasCat_system_logs] at hc; exact hc
    | journal_logs => rw [hasCat_journal] at hc; exact hc
    | old_logs => exact absurd rfl hne
  · intro hn
    rw [lookupCat_old]
    simp [old_logs_size, varLogPath] at hn ⊢
    rw [hn]
  · intro d hd hmatch
    rw [lookupCat_old]
    simp only [old_logs_size, varLogPath] at hd ⊢
    rw [hd]
    show some (entriesOld d) = some 0
    rw [entriesOld_zero d hmatch]

/-- Witness for C6 on a host whose `/var/log` holds only a live log file. -/
theorem snapshot_presence_witness :
    hasCat (scan_cleanable_items varLogHost) Category.old_logs = true ∧
    definingDirExists varLogHost Category.system_logs = true ∧
    lookupCat (scan_cleanable_items varLogHost) Category.old_logs = some 0 :=
  ⟨(snapshot_presence varLogHost).1,
   (snapshot_presence varLogHost).2.1 Category.system_logs (by decide) (by decide),
   (snapshot_presence varLogHost).2.2.2 _ rfl (by decide)⟩

/-- Claim C7: after an affirmative confirmation the executor actions invoked
are exactly the categories present in the pre-snapshot among the six that have
actions, in the fixed order APT, DNF, YUM, user cache, journal logs, old logs;
no action corresponds to `system_logs`, `tmp` or `var_tmp`, so those
categories are scanned but never acted upon. -/
theorem executor_order_spec (h : Host) (resp : String) (post : Host)
    (hr : pyLower (pyStrip resp) = "y") :
    (perform_cleaning h false resp post).actions
      = actionOrder.filter (fun a => hasCat (scan_cleanable_items h) (actionCat a)) ∧
    (∀ a ∈ (perform_cleaning h false resp post).actions,
      actionCat a ≠ Category.system_logs ∧ actionCat a ≠ Category.tmp ∧
      actionCat a ≠ Category.var_tmp) := by
  constructor
  · simp only [perform_cleaning, Bool.false_eq_true, if_false]
    rw [if_neg (by simp [hr])]
    simp only [actionOrder, List.filter, actionCat]
    cases hasCat (scan_cleanable_items h) Category.apt_cache <;>
      cases hasCat (scan_cleanable_items h) Category.dnf_cache <;>
      cases hasCat (scan_cleanable_items h) Category.yum_cache <;>
      cases hasCat (scan_cleanable_items h) Category.user_cache <;>
      cases hasCat (scan_cleanable_items h) Category.journal_logs <;>
      cases hasCat (scan_cleanable_items h) Category.old_logs <;> simp
  · intro a _
    cases a <;> exact ⟨by decide, by decide, by decide⟩

/-- Witness for C7 on a host with an APT cache only. -/
theorem executor_order_spec_witness :
    (perform_cleaning aptHost false "y" aptHost).actions
      = actionOrder.filter (fun a => hasCat (scan_cleanable_items aptHost) (actionCat a)) :=
  (executor_order_spec aptHost "y" aptHost (by decide)).1

/-- Claim C8: the reported freed-space value is the pre-snapshot total minus
the post-snapshot total, computed in ℤ, hence negative (and unclamped) when
the post total exceeds the pre total. -/
theorem freed_equation (h : Host) (resp : String) (post : Host)
    (hr : pyLower (pyStrip resp) = "y") :
    (perform_cleaning h false resp post).freed
      = some ((snapshotTotal (scan_cleanable_items h) : Int)
          - (snapshotTotal (scan_cleanable_items post) : Int)) := by
  simp only [perform_cleaning, Bool.false_eq_true, if_false]
  rw [if_neg (by simp [hr])]

/-- Witness for C8: post total 5 against pre total 0 reports `-5`, not 0. -/
theorem freed_equation_witness :
    (perform_cleaning emptyHost false "y" (tmpHost 5)).freed = some (-5) := by
  rw [freed_equation emptyHost "y" (tmpHost 5) (by decide)]
  decide

/-- Claim C9: an executor action whose required tool is missing from PATH
runs no destructive command, and the session still runs to the freed-space
report rather than aborting. -/
theorem missing_tool_noop (h : Host) (resp : String) (post : Host)
    (hr : pyLower (pyStrip resp) = "y") :
    (command_exists h "apt-get" = false → clean_apt_cache h = []) ∧
    (command_exists h "dnf" = false → clean_dnf_cache h = []) ∧
    (command_exists h "yum" = false → clean_yum_cache h = []) ∧
    (command_exists h "journalctl" = false → clean_journal_logs h = []) ∧
    (perform_cleaning h false resp post).cancelled = false ∧
    (perform_cleaning h false resp post).freed.isSome = true := by
  refine ⟨?_, ?_, ?_, ?_, ?_, ?_⟩
  · intro ht; simp [clean_apt_cache, ht]
  · intro ht; simp [clean_dnf_cache, ht]
  · intro ht; simp [clean_yum_cache, ht]
  · intro ht; simp [clean_journal_logs, ht]
  · simp only [perform_cleaning, Bool.false_eq_true, if_false]
    rw [if_neg (by simp [hr])]
  · simp only [perform_cleaning, Bool.false_eq_true, if_false]
    rw [if_neg (by simp [hr])]
    rfl

/-- Witness for C9: a host with a DNF cache directory but no `dnf` binary;
the DNF action is a no-op and the session reaches the report. -/
theorem missing_tool_noop_witness :
    clean_dnf_cache dnfNoToolHost = [] ∧
    (perform_cleaning dnfNoToolHost false "y" dnfNoToolHost).cancelled = false ∧
    (perform_cleaning dnfNoToolHost false "y" dnfNoToolHost).freed.isSome = true :=
  ⟨(missing_tool_noop dnfNoToolHost "y" dnfNoToolHost (by decide)).2.1 rfl,
   (missing_tool_noop dnfNoToolHost "y" dnfNoToolHost (by decide)).2.2.2.2.1,
   (missing_tool_noop dnfNoToolHost "y" dnfNoToolHost (by decide)).2.2.2.2.2⟩

/-- Claim C1 (amended): with pre-total 500,000,000 and post-total 120,000,000
the reported freed space is exactly 380,000,000 bytes, which the byte
formatter renders as `"362.4 MB"` (380,000,000 / 1024² ≈ 362.4). -/
theorem freed_space_render (h : Host) (resp : String) (post : Host)
    (hr : pyLower (pyStrip resp) = "y")
    (hpre : snapshotTotal (scan_cleanable_items h) = 500000000)
    (hpost : snapshotTotal (scan_cleanable_items post) = 120000000) :
    (perform_cleaning h false resp post).freed = some 380000000 ∧
    format_bytes (some 380000000) = "362.4 MB" := by
  constructor
  · rw [freed_equation h resp post hr, hpre, hpost]
    decide
  · decide

/-- Witness for C1 with concrete 500 MB-ish and 120 MB-ish hosts. -/
theorem freed_space_render_witness :
    (perform_cleaning (tmpHost 500000000) false "y" (tmpHost 120000000)).freed
      = some 380000000 ∧
    format_bytes (some 380000000) = "362.4 MB" :=
  freed_space_render (tmpHost 500000000) "y" (tmpHost 120000000)
    (by decide) (by decide) (by decide)

/-- Counterexample for C1 as stated: dividing 380,000,000 by 1024 repeatedly
yields 362.396…, so the formatter renders `"362.4 MB"`, not `"380.0 MB"`. -/
theorem freed_render_cex :
    format_bytes (some ((500000000 : Int) - 120000000)) = "362.4 MB" ∧
    format_bytes (some ((500000000 : Int) - 120000000)) ≠ "380.0 MB" := by
  decide

/-- Claim C10: a negative byte count is below 1024 at the first unit step, so
it is rendered unscaled with one decimal digit and unit B; a non-numeric
argument renders as `"0 B"`. -/
theorem negative_unscaled (x : Int) (hx : x < 0) :
    format_bytes (some x) = "-" ++ toString (-x).toNat ++ ".0 B" ∧
    format_bytes none = "0 B" := by
  refine ⟨?_, rfl⟩
  have h1 : x < (1024 : Int) ^ (0 + 1) := lt_trans hx (by norm_num)
  simp only [format_bytes, format_bytes_go, unitLadder, if_pos h1]
  have h2 : roundHalfEven (10 * x) ((1024 : Int) ^ 0) = 10 * x := by
    have e1 : (10 * x) % (1 : Int) = 0 := by omega
    have e2 : (10 * x) / (1 : Int) = 10 * x := by omega
    norm_num [roundHalfEven, e1, e2]
  rw [fmtScaled, h2]
  have h3 : 10 * x < 0 := by omega
  rw [fmtOneDec, if_pos h3]
  have h4 : (-(10 * x)).toNat = 10 * (-x).toNat := by omega
  rw [h4, Nat.mul_div_cancel_left _ (by norm_num), Nat.mul_mod_right]
  have h5 : toString (0 : Nat) = "0" := rfl
  rw [h5]
  simp only [String.append_assoc]
  have h6 : "." ++ ("0" ++ (" " ++ "B")) = ".0 B" := rfl
  rw [h6]

/-- Witness for C10 at the claim's own example, −5,000,000 bytes. -/
theorem negative_unscaled_witness :
    format_bytes (some (-5000000 : Int)) = "-5000000.0 B" ∧
    format_bytes none = "0 B" := by
  have h := negative_unscaled (-5000000) (by decide)
  refine ⟨?_, h.2⟩
  rw [h.1]
  decide

end Sysx
